import Mathlib

/-!
Verification of the go-hdb example scripts and of the driver-core design that
the repository's specification describes.

The repository's own code consists of two Python example scripts,
src/cmd/sniffer/scripts/test01.py and src/driver/x_bstring_test.py, which
drive a third-party database client.  Those scripts are embedded directly
(their statement sequences, their try/except/finally structure, and their
resource acquisition order).  The driver core itself — connection lifecycle,
wire codec, statement/cursor engine, error taxonomy — is not present in the
repository, so it is modelled from the specification; every such definition
carries a doc comment starting with the words Modelled from the spec.
-/

deriving instance DecidableEq for Except

namespace HdbDriver

/-! ## Data model (spec section 3) -/

/-- Modelled from the spec: a typed scalar parameter/column value
(integer, string, binary, null).  Binary values are raw byte lists and may
contain embedded NUL (0) bytes. -/
inductive SqlValue where
  | intV (i : Int)
  | strV (s : String)
  | binV (bs : List Nat)
  | nullV
deriving DecidableEq

/-- A row of a Result: a tuple of typed column values. -/
abbrev Row := List SqlValue

/-- Modelled from the spec (section 7): the error taxonomy of the driver. -/
inductive DriverError where
  | networkError
  | authError
  | protocolError
  | bindingError
  | sqlError
deriving DecidableEq

/-! ## Wire codec (spec section 4.2)

Every variable-length field is length-prefixed (never delimiter-terminated)
and every multi-byte integer uses one consistent (little-endian) byte order. -/

/-- Little-endian interpretation of a byte list as a natural number. -/
def bytesToNat : List Nat → Nat
  | [] => 0
  | b :: bs => b + 256 * bytesToNat bs

/-- Fixed-width little-endian encoding of a natural number in k bytes. -/
def natToBytesFix : Nat → Nat → List Nat
  | 0, _ => []
  | k + 1, n => (n % 256) :: natToBytesFix k (n / 256)

/-- Fuel-driven minimal little-endian encoding (the fuel only bounds the
recursion depth; natToBytesLE supplies enough of it). -/
def natToBytesAux : Nat → Nat → List Nat
  | 0, _ => []
  | fuel + 1, n => if n = 0 then [] else (n % 256) :: natToBytesAux fuel (n / 256)

/-- Minimal little-endian encoding of a natural number. -/
def natToBytesLE (n : Nat) : List Nat := natToBytesAux n n

/-- Modelled from the spec: a length-prefixed variable-length field — a
4-byte little-endian length followed by the raw payload bytes. -/
def lpEncode (bs : List Nat) : List Nat := natToBytesFix 4 bs.length ++ bs

/-- Modelled from the spec: read one length-prefixed field from the byte
stream, returning the payload and the remaining stream. -/
def readLP (s : List Nat) : Option (List Nat × List Nat) :=
  if 4 ≤ s.length then
    let len := bytesToNat (s.take 4)
    let r := s.drop 4
    if len ≤ r.length then some (r.take len, r.drop len) else none
  else none

/-- Characters of a string encoded as 4-byte little-endian code points. -/
def charsBytes : List Char → List Nat
  | [] => []
  | c :: cs => natToBytesFix 4 c.toNat ++ charsBytes cs

/-- Decode 4-byte little-endian code points back into characters, rejecting
invalid code points. -/
def bytesToChars : List Nat → Option (List Char)
  | [] => some []
  | b0 :: b1 :: b2 :: b3 :: rest =>
    let n := bytesToNat [b0, b1, b2, b3]
    if Nat.isValidChar n then
      match bytesToChars rest with
      | some cs => some (Char.ofNat n :: cs)
      | none => none
    else none
  | _ => none

/-- Frame type tag of a value (spec: frames carry a type tag). -/
def valTag : SqlValue → Nat
  | .intV _ => 0
  | .strV _ => 1
  | .binV _ => 2
  | .nullV => 3

/-- Payload bytes of a value.  Integers carry a sign byte followed by the
little-endian magnitude; strings carry their code points; binary values carry
their raw bytes unchanged (embedded NUL bytes included). -/
def valPayload : SqlValue → List Nat
  | .intV i => (if i < 0 then 1 else 0) :: natToBytesLE i.natAbs
  | .strV s => charsBytes s.data
  | .binV bs => bs
  | .nullV => []

/-- Modelled from the spec: encode one value as a type tag followed by a
length-prefixed payload. -/
def encodeVal (v : SqlValue) : List Nat := valTag v :: lpEncode (valPayload v)

/-- Decode one value payload according to its type tag. -/
def parseVal (t : Nat) (body : List Nat) : Option SqlValue :=
  if t = 0 then
    match body with
    | sign :: bs =>
      some (if sign = 0 then .intV (bytesToNat bs) else .intV (-(bytesToNat bs : Int)))
    | [] => none
  else if t = 1 then (bytesToChars body).map (fun cs => .strV (String.mk cs))
  else if t = 2 then some (.binV body)
  else if t = 3 then (if body = [] then some .nullV else none)
  else none

/-- Modelled from the spec: decode one value from the stream (resumable —
the unconsumed remainder of the stream is returned). -/
def decodeVal (s : List Nat) : Option (SqlValue × List Nat) :=
  match s with
  | [] => none
  | t :: rest =>
    match readLP rest with
    | none => none
    | some (body, rest2) =>
      match parseVal t body with
      | none => none
      | some v => some (v, rest2)

/-- A value is wire-representable when its payload fits the 4-byte length
field. -/
def wfValue (v : SqlValue) : Prop := (valPayload v).length < 2 ^ 32

instance (v : SqlValue) : Decidable (wfValue v) := by
  unfold wfValue; infer_instance

/-- Concatenated encodings of a list of values. -/
def encList : List SqlValue → List Nat
  | [] => []
  | v :: vs => encodeVal v ++ encList vs

/-- Modelled from the spec: encode a bound parameter row as a 4-byte count
followed by the encoded values. -/
def encodeParams (vs : List SqlValue) : List Nat :=
  natToBytesFix 4 vs.length ++ encList vs

/-- Decode exactly n values from the stream. -/
def decodeVals : Nat → List Nat → Option (List SqlValue × List Nat)
  | 0, s => some ([], s)
  | n + 1, s =>
    match decodeVal s with
    | none => none
    | some (v, s1) =>
      match decodeVals n s1 with
      | none => none
      | some (vs, s2) => some (v :: vs, s2)

/-- Modelled from the spec: decode a full parameter frame; the whole frame
must be consumed. -/
def decodeParams (s : List Nat) : Option (List SqlValue) :=
  if 4 ≤ s.length then
    match decodeVals (bytesToNat (s.take 4)) (s.drop 4) with
    | some (vs, []) => some vs
    | _ => none
  else none

/-! ## Placeholder scanning and parameter binding (spec sections 4.3, 6) -/

/-- A parameter placeholder: positional (a question mark) or named
(a colon followed by an identifier). -/
inductive Placeholder where
  | pos
  | named (nm : String)
deriving DecidableEq

def isPos : Placeholder → Bool
  | .pos => true
  | .named _ => false

def isNamed : Placeholder → Bool
  | .pos => false
  | .named _ => true

def isIdentChar (c : Char) : Bool := c.isAlphanum || c = '_'

/-- Modelled from the spec: the single statement-parsing pass that collects
both positional and named placeholders from the SQL text.  The second
argument holds the characters of a named placeholder currently being read
(none when outside a name). -/
def scanPHAux : List Char → Option (List Char) → List Placeholder
  | [], none => []
  | [], some acc => if acc = [] then [] else [.named (String.mk acc)]
  | c :: rest, none =>
    if c = '?' then .pos :: scanPHAux rest none
    else if c = ':' then scanPHAux rest (some [])
    else scanPHAux rest none
  | c :: rest, some acc =>
    if isIdentChar c then scanPHAux rest (some (acc ++ [c]))
    else
      let tail :=
        if c = '?' then .pos :: scanPHAux rest none
        else if c = ':' then scanPHAux rest (some [])
        else scanPHAux rest none
      if acc = [] then tail else .named (String.mk acc) :: tail

/-- Placeholders of a statement text, in textual order. -/
def scanPH (cs : List Char) : List Placeholder := scanPHAux cs none

/-- Shape of the placeholders of one statement. -/
inductive PHKind where
  | noPH
  | posOnly
  | namedOnly
  | mixed
deriving DecidableEq

/-- Classify a placeholder list: positional and named markers are mutually
exclusive per statement; their coexistence is the mixed (error) shape. -/
def classify (phs : List Placeholder) : PHKind :=
  if phs.any isPos then
    if phs.any isNamed then .mixed else .posOnly
  else
    if phs.any isNamed then .namedOnly else .noPH

/-- A ParameterSet as passed by the caller: absent, a positional tuple, or a
name-to-value mapping. -/
inductive Args where
  | noArgs
  | tuple (vs : List SqlValue)
  | dict (m : List (String × SqlValue))
deriving DecidableEq

/-- Look a parameter name up in a dict ParameterSet. -/
def lookupArg (m : List (String × SqlValue)) (nm : String) : Option SqlValue :=
  match m with
  | [] => none
  | (k, v) :: rest => if k = nm then some v else lookupArg rest nm

/-- Resolve a list of named placeholders against a dict ParameterSet by
exact name match; fails on a positional marker or a missing name. -/
def resolveNamed (m : List (String × SqlValue)) : List Placeholder → Option Row
  | [] => some []
  | .pos :: _ => none
  | .named nm :: rest =>
    match lookupArg m nm, resolveNamed m rest with
    | some v, some row => some (v :: row)
    | _, _ => none

/-- Modelled from the spec: bind a ParameterSet against the statement's
placeholders — positional markers bound by ordinal position, named markers
by exact name match, with a BindingError on count/name mismatch. -/
def bindParams (phs : List Placeholder) (a : Args) : Except DriverError Row :=
  match a with
  | .noArgs => if phs = [] then .ok [] else .error .bindingError
  | .tuple vs =>
    if phs.length == vs.length && phs.all isPos then .ok vs
    else .error .bindingError
  | .dict m =>
    match resolveNamed m phs with
    | some row => .ok row
    | none => .error .bindingError

/-! ## Statement/cursor engine over the T1 scenario (spec sections 4.3, 8) -/

/-- The statements of the T1 scenario, as issued by test01.py. -/
def sqlCreateT1 : String := "CREATE TABLE T1 (ID INTEGER PRIMARY KEY, C2 VARCHAR(255))"

def sqlInsertPos : String := "INSERT INTO T1 (ID, C2) VALUES (?, ?)"

def sqlInsertNamed : String := "INSERT INTO T1 (ID, C2) VALUES (:id, :c2)"

def sqlSelectT1 : String := "SELECT * FROM T1"

/-- Modelled from the spec: server-side SQL understanding is out of scope
(owned by the remote server), so the scenario's statement texts map to
abstract commands. -/
inductive Command where
  | createT1
  | insertT1
  | selectT1
deriving DecidableEq

/-- Modelled from the spec: recognize the scenario's statements. -/
def parseSQL (sql : String) : Option Command :=
  if sql = sqlCreateT1 then some .createT1
  else if sql = sqlInsertPos then some .insertT1
  else if sql = sqlInsertNamed then some .insertT1
  else if sql = sqlSelectT1 then some .selectT1
  else none

/-- Outcome of executing one statement (spec section 4.3). -/
inductive ExecOutcome where
  | rowsAffected (n : Nat)
  | resultSet (rs : List Row)
deriving DecidableEq

/-- Session state: the T1 table held by the server (none before CREATE) and
the log of parameter frames sent over the transport. -/
structure Session where
  table : Option (List Row)
  sent : List (List Nat)
deriving DecidableEq

/-- Fetching a stored result set returns its rows in insertion order. -/
def fetchTable (t : List Row) : List Row := t

/-- Modelled from the spec: insert one bound row — the ParameterSet is
bound, encoded into a wire frame, decoded by the server and appended to the
table, so fetched rows reflect exactly the bytes that crossed the wire. -/
def execInsert (phs : List Placeholder) (a : Args) (t : List Row) :
    Except DriverError (List Row) :=
  match bindParams phs a with
  | .error e => .error e
  | .ok row =>
    match decodeParams (encodeParams row) with
    | none => .error .protocolError
    | some r => .ok (t ++ [r])

/-- Modelled from the spec: execute one statement on a session.  Mixing
positional and named placeholders fails with BindingError before any bytes
are sent; a failed binding also sends nothing. -/
def executeStmt (sql : String) (a : Args) (s : Session) :
    Except DriverError ExecOutcome × Session :=
  let phs := scanPH sql.data
  if classify phs = .mixed then (.error .bindingError, s)
  else
    match parseSQL sql with
    | none => (.error .sqlError, s)
    | some .createT1 =>
      match bindParams phs a with
      | .error e => (.error e, s)
      | .ok row =>
        let s1 : Session := { s with sent := s.sent ++ [encodeParams row] }
        match s1.table with
        | some _ => (.error .sqlError, s1)
        | none => (.ok (.rowsAffected 0), { s1 with table := some [] })
    | some .insertT1 =>
      match bindParams phs a with
      | .error e => (.error e, s)
      | .ok row =>
        let s1 : Session := { s with sent := s.sent ++ [encodeParams row] }
        match s1.table with
        | none => (.error .sqlError, s1)
        | some t =>
          match execInsert phs a t with
          | .error e => (.error e, s1)
          | .ok t2 => (.ok (.rowsAffected 1), { s1 with table := some t2 })
    | some .selectT1 =>
      match bindParams phs a with
      | .error e => (.error e, s)
      | .ok row =>
        let s1 : Session := { s with sent := s.sent ++ [encodeParams row] }
        match s1.table with
        | none => (.error .sqlError, s1)
        | some t => (.ok (.resultSet (fetchTable t)), s1)

/-- The T1 scenario of test01.py, step by step (DROP precedes the scenario
in the script and is outside the claim). -/
def scenarioS0 : Session := { table := none, sent := [] }

def scenarioStep1 : Except DriverError ExecOutcome × Session :=
  executeStmt sqlCreateT1 .noArgs scenarioS0

def scenarioStep2 : Except DriverError ExecOutcome × Session :=
  executeStmt sqlInsertPos (.tuple [.intV 1, .strV "hello"]) scenarioStep1.2

def scenarioStep3 : Except DriverError ExecOutcome × Session :=
  executeStmt sqlInsertPos (.tuple [.intV 2, .strV "hello again"]) scenarioStep2.2

def scenarioStep4 : Except DriverError ExecOutcome × Session :=
  executeStmt sqlInsertNamed (.dict [("id", .intV 3), ("c2", .strV "goodbye")]) scenarioStep3.2

def scenarioStep5 : Except DriverError ExecOutcome × Session :=
  executeStmt sqlSelectT1 .noArgs scenarioStep4.2

/-- A 32-byte binary digest value with embedded NUL (0) bytes, of the shape
x_bstring_test.py binds as its named parameter. -/
def digestBytes : List Nat :=
  [148, 238, 5, 147, 53, 229, 135, 229, 1, 204, 75, 249, 6, 19, 224, 129,
   79, 0, 167, 176, 139, 199, 198, 72, 253, 134, 90, 42, 246, 162, 44, 194]

/-! ## Connection lifecycle (spec section 4.1) -/

/-- Modelled from the spec: a Connection holds the transport handle and the
session/authentication token; at most one live transport per Connection. -/
structure Connection where
  transport : Option Nat
  sessionToken : Option Nat
deriving DecidableEq

/-- Outcome of a close call.  There is no error alternative: closing an
already-closed Connection fails silently. -/
inductive CloseOutcome where
  | released
  | alreadyClosed
deriving DecidableEq

/-- Modelled from the spec: close releases the transport and is idempotent;
on an already-closed Connection it is a silent no-op. -/
def closeConn (c : Connection) : Connection × CloseOutcome :=
  match c.transport with
  | some _ => ({ transport := none, sessionToken := none }, .released)
  | none => (c, .alreadyClosed)

/-! ## Result iteration (spec section 4.3) -/

/-- One fetch either yields the next row or signals EndOfResults. -/
inductive FetchOut where
  | row (r : Row)
  | endOfResults
deriving DecidableEq

/-- Modelled from the spec: a Result is an ordered row sequence consumed
through a cursor position; it is never mutated after creation. -/
structure ResultCursor where
  rows : List Row
  pos : Nat
deriving DecidableEq

/-- Modelled from the spec: advance the cursor by one row, or report
EndOfResults (leaving the cursor unchanged) once the rows are consumed. -/
def fetchRow (rc : ResultCursor) : FetchOut × ResultCursor :=
  match rc.rows.drop rc.pos with
  | [] => (.endOfResults, rc)
  | r :: _ => (.row r, { rc with pos := rc.pos + 1 })

/-- Perform k successive fetch calls, collecting their outcomes. -/
def runFetches : Nat → ResultCursor → List FetchOut × ResultCursor
  | 0, rc => ([], rc)
  | k + 1, rc =>
    let p1 := fetchRow rc
    let p2 := runFetches k p1.2
    (p1.1 :: p2.1, p2.2)

/-- A Result is exhausted when its cursor has passed every row. -/
def exhausted (rc : ResultCursor) : Prop := rc.rows.length ≤ rc.pos

instance (rc : ResultCursor) : Decidable (exhausted rc) := by
  unfold exhausted; infer_instance

/-! ## Statement / open-Result bookkeeping (spec section 3, invariant) -/

/-- A server-side Result object: its id, the Statement that opened it, and
whether it is still open. -/
structure ResultObj where
  rid : Nat
  stmt : Nat
  isOpen : Bool
deriving DecidableEq

/-- The Result bookkeeping of one session: all Result objects ever created
plus the next fresh Result id. -/
structure SessionResults where
  results : List ResultObj
  nextId : Nat
deriving DecidableEq

/-- Operations that affect open Results: executing a Statement (opening a
fresh Result for it) and closing a Result by id. -/
inductive SessOp where
  | exec (stmt : Nat)
  | closeRes (rid : Nat)

def closeForStmt (st : Nat) (r : ResultObj) : ResultObj :=
  if r.stmt = st then { r with isOpen := false } else r

def closeForId (i : Nat) (r : ResultObj) : ResultObj :=
  if r.rid = i then { r with isOpen := false } else r

/-- Modelled from the spec: executing a Statement implicitly closes its
prior open Result and opens a fresh one; closing a Result closes just it. -/
def stepSess (s : SessionResults) : SessOp → SessionResults
  | .exec st =>
    { results := s.results.map (closeForStmt st) ++ [{ rid := s.nextId, stmt := st, isOpen := true }],
      nextId := s.nextId + 1 }
  | .closeRes i => { results := s.results.map (closeForId i), nextId := s.nextId }

/-- States reachable from the fresh session by the session operations. -/
inductive ReachableSess : SessionResults → Prop where
  | init : ReachableSess { results := [], nextId := 0 }
  | step (s : SessionResults) (op : SessOp) : ReachableSess s → ReachableSess (stepSess s op)

/-- Number of open Results belonging to one Statement. -/
def openCount (s : SessionResults) (st : Nat) : Nat :=
  s.results.countP (fun r => r.stmt == st && r.isOpen)

/-! ## Transport loss during a fetch (spec sections 5, 8) -/

/-- Connection phase as seen by the operation dispatcher. -/
inductive ConnPhase where
  | connOpen
  | connClosed
deriving DecidableEq

/-- Operations a caller can attempt on the connection. -/
inductive OpKind where
  | fetchOp
  | execOp
deriving DecidableEq

/-- Outcome of one attempted operation. -/
inductive OpOut where
  | success
  | netError
  | closedError
deriving DecidableEq

/-- Modelled from the spec: an operation on an open connection whose
transport has dropped surfaces NetworkError and closes the connection; on an
already-closed connection every operation fails with a closed-connection
error and can never succeed. -/
def doOp (alive : Bool) (c : ConnPhase) : OpKind → OpOut × ConnPhase :=
  fun _ =>
    match c with
    | .connClosed => (.closedError, .connClosed)
    | .connOpen => if alive then (.success, .connOpen) else (.netError, .connClosed)

/-- Run a sequence of operations, collecting each outcome. -/
def runOps (alive : Bool) : ConnPhase → List OpKind → List OpOut × ConnPhase
  | c, [] => ([], c)
  | c, k :: ks =>
    let p1 := doOp alive c k
    let p2 := runOps alive p1.2 ks
    (p1.1 :: p2.1, p2.2)

end HdbDriver

namespace Scripts

/-! ## The Python scripts themselves

Shallow embedding of src/driver/x_bstring_test.py (its nested
try/except/finally structure and Python's name-resolution rule for except
clauses) and of the resource acquisition order of
src/cmd/sniffer/scripts/test01.py. -/

/-- An exception value of class Exception (the database operations raise
Exception subclasses; evaluating an undefined name raises NameError). -/
inductive PyExc where
  | dbError (code : Nat)
  | nameErr
deriving DecidableEq

/-- The names resolvable inside x_bstring_test.py at the point where an
except clause is evaluated: the module's own bindings plus the builtins the
script touches.  The misspelling Exceptiopn is not among them. -/
def scriptGlobals : List String :=
  ["dbapi", "hashlib", "argparse", "parser", "args", "conn", "cursor",
   "hash", "err", "print", "format", "Exception", "BaseException", "NameError"]

/-- Whether the named exception class catches a pending exception.  Every
exception of the model is an Exception subclass, so the Exception (and
BaseException) handlers catch everything. -/
def excClassCatches (clsName : String) (_e : PyExc) : Bool :=
  clsName == "Exception" || clsName == "BaseException"

/-- Result of evaluating one except clause against a pending exception. -/
inductive HandlerRes where
  | handled (e : PyExc)
  | escaped (e : PyExc)
deriving DecidableEq

/-- Python semantics of an except clause: the class expression is evaluated
first by name resolution; an undefined name raises NameError, which replaces
the pending exception instead of handling it. -/
def runExceptClause (env : List String) (clsName : String) (e : PyExc) : HandlerRes :=
  if env.contains clsName then
    if excClassCatches clsName e then .handled e else .escaped e
  else .escaped .nameErr

/-- Which of the script's operations raise, and what they raise.  none means
the operation succeeds. -/
structure ScriptFaults where
  connectE : Option PyExc
  cursorE : Option PyExc
  executeE : Option PyExc
  cursorCloseE : Option PyExc
  connCloseE : Option PyExc
deriving DecidableEq

/-- Result of the innermost try/except/finally of x_bstring_test.py
(execute guarded by except Exception, then finally cursor.close): the
exception escaping the whole statement, and the error prints made by the
inner handler. -/
def innerResult (b : ScriptFaults) : Option PyExc × List PyExc :=
  let afterHandler : Option PyExc × List PyExc :=
    match b.executeE with
    | none => (none, [])
    | some e =>
      match runExceptClause scriptGlobals "Exception" e with
      | .handled e2 => (none, [e2])
      | .escaped e2 => (some e2, [])
  match b.cursorCloseE with
  | some e2 => (some e2, afterHandler.2)
  | none => afterHandler

/-- Result of the middle try/except/finally of x_bstring_test.py. -/
structure MiddleRes where
  escaping : Option PyExc
  innerPrints : List PyExc
  middlePrints : List PyExc
  cursorOpened : Bool
  cursorCloseCalled : Bool
deriving DecidableEq

/-- The middle try/except/finally: cursor creation and the inner statement,
guarded by the misspelled except Exceptiopn clause, then finally
conn.close. -/
def middleResult (b : ScriptFaults) : MiddleRes :=
  let body : Option PyExc × List PyExc × Bool × Bool :=
    match b.cursorE with
    | some e => (some e, [], false, false)
    | none =>
      let p := innerResult b
      (p.1, p.2, true, true)
  let afterHandler : Option PyExc × List PyExc :=
    match body.1 with
    | none => (none, [])
    | some e =>
      match runExceptClause scriptGlobals "Exceptiopn" e with
      | .handled e2 => (none, [e2])
      | .escaped e2 => (some e2, [])
  let afterFinally : Option PyExc :=
    match b.connCloseE with
    | some e2 => some e2
    | none => afterHandler.1
  { escaping := afterFinally,
    innerPrints := body.2.1,
    middlePrints := afterHandler.2,
    cursorOpened := body.2.2.1,
    cursorCloseCalled := body.2.2.2 }

/-- Full observable behaviour of one run of x_bstring_test.py. -/
structure ScriptTrace where
  escapedExc : Option PyExc
  innerPrints : List PyExc
  middlePrints : List PyExc
  outerPrints : List PyExc
  connOpened : Bool
  connCloseCalled : Bool
  cursorOpened : Bool
  cursorCloseCalled : Bool
deriving DecidableEq

/-- The whole script: connect and the middle statement, guarded by the
outermost except Exception clause. -/
def runScript (b : ScriptFaults) : ScriptTrace :=
  match b.connectE with
  | some e =>
    match runExceptClause scriptGlobals "Exception" e with
    | .handled e2 =>
      { escapedExc := none, innerPrints := [], middlePrints := [], outerPrints := [e2],
        connOpened := false, connCloseCalled := false,
        cursorOpened := false, cursorCloseCalled := false }
    | .escaped e2 =>
      { escapedExc := some e2, innerPrints := [], middlePrints := [], outerPrints := [],
        connOpened := false, connCloseCalled := false,
        cursorOpened := false, cursorCloseCalled := false }
  | none =>
    let m := middleResult b
    match m.escaping with
    | none =>
      { escapedExc := none, innerPrints := m.innerPrints, middlePrints := m.middlePrints,
        outerPrints := [],
        connOpened := true, connCloseCalled := true,
        cursorOpened := m.cursorOpened, cursorCloseCalled := m.cursorCloseCalled }
    | some e =>
      match runExceptClause scriptGlobals "Exception" e with
      | .handled e2 =>
        { escapedExc := none, innerPrints := m.innerPrints, middlePrints := m.middlePrints,
          outerPrints := [e2],
          connOpened := true, connCloseCalled := true,
          cursorOpened := m.cursorOpened, cursorCloseCalled := m.cursorCloseCalled }
      | .escaped e2 =>
        { escapedExc := some e2, innerPrints := m.innerPrints, middlePrints := m.middlePrints,
          outerPrints := [],
          connOpened := true, connCloseCalled := true,
          cursorOpened := m.cursorOpened, cursorCloseCalled := m.cursorCloseCalled }

/-! ## Resource events of test01.py -/

/-- Resource acquisition/release events of a script run. -/
inductive REvent where
  | openConn
  | closeConn
  | openCur (n : Nat)
  | closeCur (n : Nat)
deriving DecidableEq

/-- The resource events of the only (error-free) path of test01.py: connect;
cursor 1 (DROP, CREATE) closed; cursor 2 (positional INSERTs) closed;
cursor 3 (named INSERT) closed; cursor 4 (SELECT, iterated) never closed;
the connection never closed. -/
def test01Trace : List REvent :=
  [.openConn, .openCur 1, .closeCur 1, .openCur 2, .closeCur 2,
   .openCur 3, .closeCur 3, .openCur 4]

/-- Whether the connection is still open after the events. -/
def connOpenAfter (evs : List REvent) : Bool :=
  evs.foldl
    (fun st e =>
      match e with
      | .openConn => true
      | .closeConn => false
      | _ => st)
    false

/-- The cursors still open after the events. -/
def openCursAfter (evs : List REvent) : List Nat :=
  evs.foldl
    (fun st e =>
      match e with
      | .openCur n => st ++ [n]
      | .closeCur n => st.filter (fun m => m ≠ n)
      | _ => st)
    []

/-- Every opened Connection and cursor has been released by the end. -/
def allReleased (evs : List REvent) : Bool :=
  !connOpenAfter evs && (openCursAfter evs).isEmpty

end Scripts


/-! # Theorems -/

namespace HdbDriver

/-! ## Wire codec round-trip lemmas -/

theorem length_natToBytesFix (k n : Nat) : (natToBytesFix k n).length = k := by
  induction k generalizing n with
  | zero => rfl
  | succ k ih => simp [natToBytesFix, ih]

theorem bytesToNat_natToBytesFix (k n : Nat) (h : n < 256 ^ k) :
    bytesToNat (natToBytesFix k n) = n := by
  induction k generalizing n with
  | zero =>
    simp only [natToBytesFix, bytesToNat]
    simp only [pow_zero] at h
    omega
  | succ k ih =>
    have hd : n / 256 < 256 ^ k := by
      rw [Nat.div_lt_iff_lt_mul (by norm_num)]
      calc n < 256 ^ (k + 1) := h
        _ = 256 ^ k * 256 := by rw [Nat.pow_succ]
    simp only [natToBytesFix, bytesToNat, ih _ hd]
    omega

theorem bytesToNat_natToBytesAux (fuel n : Nat) (h : n ≤ fuel) :
    bytesToNat (natToBytesAux fuel n) = n := by
  induction fuel generalizing n with
  | zero =>
    simp only [natToBytesAux, bytesToNat]
    omega
  | succ fuel ih =>
    by_cases hn : n = 0
    · simp [natToBytesAux, hn, bytesToNat]
    · have hfuel : n / 256 ≤ fuel := by
        have := Nat.div_lt_self (Nat.pos_of_ne_zero hn) (show 1 < 256 by norm_num)
        omega
      simp only [natToBytesAux, hn, if_false, bytesToNat, ih _ hfuel]
      omega

theorem bytesToNat_natToBytesLE (n : Nat) : bytesToNat (natToBytesLE n) = n :=
  bytesToNat_natToBytesAux n n (Nat.le_refl n)

theorem readLP_lpEncode (bs rest : List Nat) (h : bs.length < 2 ^ 32) :
    readLP (lpEncode bs ++ rest) = some (bs, rest) := by
  have h4 : bs.length < 256 ^ 4 := lt_of_lt_of_le h (by norm_num)
  have hlen4 : (natToBytesFix 4 bs.length).length = 4 := length_natToBytesFix 4 _
  simp only [lpEncode, List.append_assoc, readLP]
  rw [if_pos (by simp [hlen4])]
  rw [List.take_left' hlen4, List.drop_left' hlen4,
    bytesToNat_natToBytesFix 4 _ h4]
  rw [if_pos (by simp)]
  rw [List.take_left, List.drop_left]

theorem char_toNat_lt (c : Char) : c.toNat < 256 ^ 4 := by
  have hv : Nat.isValidChar c.toNat := c.valid
  have h4 : (256 : Nat) ^ 4 = 4294967296 := by norm_num
  rcases hv with h | ⟨h1, h2⟩ <;> omega

theorem char_ofNat_toNat (c : Char) : Char.ofNat c.toNat = c := by
  have h : Nat.isValidChar c.toNat := c.valid
  simp only [Char.ofNat, dif_pos h]
  rfl

theorem bytesToChars_charsBytes (cs : List Char) :
    bytesToChars (charsBytes cs) = some cs := by
  induction cs with
  | nil => rfl
  | cons c cs ih =>
    have hv : Nat.isValidChar c.toNat := c.valid
    have hbn : bytesToNat [c.toNat % 256, c.toNat / 256 % 256,
        c.toNat / 256 / 256 % 256, c.toNat / 256 / 256 / 256 % 256] = c.toNat := by
      have hfix : [c.toNat % 256, c.toNat / 256 % 256, c.toNat / 256 / 256 % 256,
          c.toNat / 256 / 256 / 256 % 256] = natToBytesFix 4 c.toNat := rfl
      rw [hfix, bytesToNat_natToBytesFix 4 _ (char_toNat_lt c)]
    show bytesToChars (c.toNat % 256 :: c.toNat / 256 % 256 ::
        c.toNat / 256 / 256 % 256 :: c.toNat / 256 / 256 / 256 % 256 :: charsBytes cs)
      = some (c :: cs)
    simp only [bytesToChars, hbn, hv, if_true, ih, char_ofNat_toNat]

theorem parseVal_valPayload (v : SqlValue) : parseVal (valTag v) (valPayload v) = some v := by
  cases v with
  | intV i =>
    by_cases hi : i < 0
    · rw [show valPayload (.intV i) = 1 :: natToBytesLE i.natAbs by
        simp [valPayload, hi]]
      show some (if (1 : Nat) = 0 then SqlValue.intV (bytesToNat (natToBytesLE i.natAbs))
        else SqlValue.intV (-(bytesToNat (natToBytesLE i.natAbs) : Int))) = some (.intV i)
      rw [if_neg (by norm_num), bytesToNat_natToBytesLE]
      simp only [Option.some.injEq, SqlValue.intV.injEq]
      omega
    · rw [show valPayload (.intV i) = 0 :: natToBytesLE i.natAbs by
        simp [valPayload, hi]]
      show some (if (0 : Nat) = 0 then SqlValue.intV (bytesToNat (natToBytesLE i.natAbs))
        else SqlValue.intV (-(bytesToNat (natToBytesLE i.natAbs) : Int))) = some (.intV i)
      rw [if_pos rfl, bytesToNat_natToBytesLE]
      simp only [Option.some.injEq, SqlValue.intV.injEq]
      omega
  | strV s =>
    simp [valTag, parseVal, valPayload, bytesToChars_charsBytes]
  | binV bs => simp [valTag, parseVal, valPayload]
  | nullV => simp [valTag, parseVal, valPayload]

theorem decodeVal_encodeVal (v : SqlValue) (rest : List Nat) (h : wfValue v) :
    decodeVal (encodeVal v ++ rest) = some (v, rest) := by
  have h1 := readLP_lpEncode (valPayload v) rest h
  have h2 := parseVal_valPayload v
  simp [encodeVal, decodeVal, h1, h2]

theorem decodeVals_encList (vs : List SqlValue) (rest : List Nat)
    (h : ∀ v ∈ vs, wfValue v) :
    decodeVals vs.length (encList vs ++ rest) = some (vs, rest) := by
  induction vs with
  | nil => simp [encList, decodeVals]
  | cons v vs ih =>
    have h1 := decodeVal_encodeVal v (encList vs ++ rest) (h v (List.mem_cons_self v vs))
    have h2 := ih (fun w hw => h w (List.mem_cons_of_mem v hw))
    simp only [encList, List.append_assoc, List.length_cons, decodeVals]
    simp [h1, h2]

theorem decodeParams_encodeParams (vs : List SqlValue)
    (hwf : ∀ v ∈ vs, wfValue v) (hlen : vs.length < 2 ^ 32) :
    decodeParams (encodeParams vs) = some vs := by
  have h4 : vs.length < 256 ^ 4 := lt_of_lt_of_le hlen (by norm_num)
  have hlen4 : (natToBytesFix 4 vs.length).length = 4 := length_natToBytesFix 4 _
  simp only [encodeParams, decodeParams]
  rw [if_pos (by simp [hlen4])]
  rw [List.take_left' hlen4, List.drop_left' hlen4,
    bytesToNat_natToBytesFix 4 _ h4]
  have hdec := decodeVals_encList vs [] hwf
  rw [List.append_nil] at hdec
  rw [hdec]

end HdbDriver

namespace HdbDriver

/-- C1: running the T1 scenario — create table T1, insert (1,'hello') and
(2,'hello again') through positional parameters, insert (3,'goodbye')
through named parameters, then SELECT * FROM T1 — yields exactly three rows
in insertion order (1,'hello'), (2,'hello again'), (3,'goodbye'). -/
theorem c1_scenario :
    scenarioStep1.1 = .ok (.rowsAffected 0) ∧
    scenarioStep2.1 = .ok (.rowsAffected 1) ∧
    scenarioStep3.1 = .ok (.rowsAffected 1) ∧
    scenarioStep4.1 = .ok (.rowsAffected 1) ∧
    scenarioStep5.1 = .ok (.resultSet
      [[.intV 1, .strV "hello"], [.intV 2, .strV "hello again"], [.intV 3, .strV "goodbye"]]) := by
  refine ⟨by decide, by decide, by decide, by decide, by decide⟩

/-- C2: for every ParameterSet that binds successfully against the
statement's placeholders (matching arity), executing the insert and fetching
returns rows whose values equal the bound values exactly — byte-for-byte
through the length-prefixed wire codec, embedded NUL bytes included. -/
theorem c2_param_roundtrip (phs : List Placeholder) (a : Args) (t : List Row) (row : Row)
    (hbind : bindParams phs a = .ok row)
    (hwf : ∀ v ∈ row, wfValue v) (hlen : row.length < 2 ^ 32) :
    execInsert phs a t = .ok (t ++ [row]) ∧
    (fetchTable (t ++ [row])).getLast? = some row := by
  constructor
  · simp [execInsert, hbind, decodeParams_encodeParams row hwf hlen]
  · simp [fetchTable, List.getLast?_concat]

/-- Witness for C2 at a concrete input: a 32-byte binary digest containing
an embedded NUL byte, bound as the named parameter id, round-trips
byte-for-byte. -/
theorem c2_param_roundtrip_witness :
    execInsert [.named "id"] (.dict [("id", .binV digestBytes)]) []
      = .ok ([] ++ [[.binV digestBytes]]) ∧
    (fetchTable ([] ++ [[SqlValue.binV digestBytes]])).getLast?
      = some [SqlValue.binV digestBytes] :=
  c2_param_roundtrip [.named "id"] (.dict [("id", .binV digestBytes)]) []
    [.binV digestBytes] (by decide) (by decide) (by decide)

/-- C4: close on a Connection is idempotent — the first close releases the
transport, a second close is a silent no-op that leaves the state unchanged,
and close composed with close equals close. -/
theorem c4_close_idempotent (c : Connection) :
    (closeConn (closeConn c).1).1 = (closeConn c).1 ∧
    (closeConn (closeConn c).1).2 = .alreadyClosed ∧
    (closeConn c).1.transport = none := by
  cases hc : c.transport with
  | none => simp [closeConn, hc]
  | some t => simp [closeConn, hc]

end HdbDriver

namespace HdbDriver

theorem runFetches_exhausted (rc : ResultCursor) (h : exhausted rc) (k : Nat) :
    runFetches k rc = (List.replicate k .endOfResults, rc) := by
  induction k with
  | zero => rfl
  | succ k ih =>
    have hfetch : fetchRow rc = (.endOfResults, rc) := by
      unfold fetchRow
      rw [List.drop_eq_nil_of_le h]
    simp [runFetches, hfetch, ih, List.replicate_succ]

theorem runFetches_yields (rows : List Row) (pre : List Row) :
    runFetches rows.length { rows := pre ++ rows, pos := pre.length }
      = (rows.map .row, { rows := pre ++ rows, pos := pre.length + rows.length }) := by
  induction rows generalizing pre with
  | nil => simp [runFetches]
  | cons r rs ih =>
    have hdrop : (pre ++ r :: rs).drop pre.length = r :: rs := List.drop_left pre (r :: rs)
    have hfetch : fetchRow { rows := pre ++ r :: rs, pos := pre.length }
        = (.row r, { rows := pre ++ r :: rs, pos := pre.length + 1 }) := by
      unfold fetchRow
      simp [hdrop]
    have hstep := ih (pre ++ [r])
    rw [List.append_assoc, List.singleton_append, List.length_append,
      List.length_singleton] at hstep
    simp only [List.length_cons, runFetches, hfetch, hstep]
    rw [List.map_cons]
    have hpos : pre.length + 1 + rs.length = pre.length + (rs.length + 1) := by omega
    rw [hpos]

/-- C6: a Result is a finite single-pass sequence — iterating a fresh Result
yields each of its rows exactly once, in order, and leaves it exhausted;
and every further fetch on an exhausted Result deterministically returns
EndOfResults, changing nothing and never yielding a stale row. -/
theorem c6_single_pass (rows : List Row) (rc : ResultCursor) (h : exhausted rc) :
    (runFetches rows.length { rows := rows, pos := 0 }).1 = rows.map .row ∧
    exhausted (runFetches rows.length { rows := rows, pos := 0 }).2 ∧
    ∀ k, runFetches k rc = (List.replicate k .endOfResults, rc) := by
  have hy := runFetches_yields rows []
  simp only [List.nil_append, List.length_nil, Nat.zero_add] at hy
  refine ⟨by rw [hy], by rw [hy]; exact Nat.le_refl _, fun k => runFetches_exhausted rc h k⟩

/-- Witness for C6 at a concrete input: iterating a one-row Result yields
the row once, and two further fetches on the exhausted cursor both return
EndOfResults with the cursor unchanged. -/
theorem c6_single_pass_witness :
    (runFetches ([[SqlValue.intV 1]] : List Row).length { rows := [[.intV 1]], pos := 0 }).1
      = ([[SqlValue.intV 1]] : List Row).map .row ∧
    runFetches 2 { rows := [[SqlValue.intV 1]], pos := 1 }
      = (List.replicate 2 .endOfResults, { rows := [[.intV 1]], pos := 1 }) := by
  have h := c6_single_pass [[SqlValue.intV 1]] { rows := [[.intV 1]], pos := 1 }
    (Nat.le_refl 1)
  exact ⟨h.1, h.2.2 2⟩

theorem runOps_closed (alive : Bool) (ops : List OpKind) :
    runOps alive .connClosed ops = (List.replicate ops.length .closedError, .connClosed) := by
  induction ops with
  | nil => rfl
  | cons k ks ih => simp [runOps, doOp, ih, List.replicate_succ]

/-- C7: when the transport has dropped while a fetch is in progress on an
open connection, the fetch surfaces NetworkError exactly once — the trace of
that fetch and any further operations contains precisely one NetworkError,
reported first — the connection ends closed, and no later operation ever
succeeds. -/
theorem c7_network_error_once (ops : List OpKind) :
    (runOps false .connOpen (.fetchOp :: ops)).1.count .netError = 1 ∧
    (runOps false .connOpen (.fetchOp :: ops)).1.head? = some .netError ∧
    (runOps false .connOpen (.fetchOp :: ops)).2 = .connClosed ∧
    ∀ o ∈ (runOps false .connOpen (.fetchOp :: ops)).1, o ≠ .success := by
  have hrun : runOps false .connOpen (.fetchOp :: ops)
      = (.netError :: List.replicate ops.length .closedError, .connClosed) := by
    simp [runOps, doOp, runOps_closed]
  refine ⟨?_, ?_, ?_, ?_⟩
  · rw [hrun]
    simp [List.count_cons, List.count_replicate]
  · rw [hrun]; rfl
  · rw [hrun]
  · rw [hrun]
    intro o ho
    rcases List.mem_cons.mp ho with h | h
    · subst h; intro hcontra; exact OpOut.noConfusion hcontra
    · have := List.eq_of_mem_replicate h
      subst this; intro hcontra; exact OpOut.noConfusion hcontra

/-- Witness for C7 at a concrete input: one fetch then one execute after the
transport drops — the outcome trace is NetworkError then closed-connection
error. -/
theorem c7_network_error_once_witness :
    (runOps false .connOpen [.fetchOp, .execOp]).1.count .netError = 1 ∧
    (runOps false .connOpen [.fetchOp, .execOp]).2 = .connClosed :=
  ⟨(c7_network_error_once [.execOp]).1, (c7_network_error_once [.execOp]).2.2.1⟩

end HdbDriver

namespace HdbDriver

theorem openCount_exec_self (s : SessionResults) (st : Nat) :
    openCount (stepSess s (.exec st)) st = 1 := by
  unfold openCount stepSess
  rw [List.countP_append, List.countP_map]
  have hzero : List.countP
      ((fun r => r.stmt == st && r.isOpen) ∘ closeForStmt st) s.results = 0 := by
    apply List.countP_eq_zero.mpr
    intro r _
    unfold closeForStmt
    by_cases hr : r.stmt = st
    · simp [hr]
    · simp [hr]
  rw [hzero]
  simp

theorem openCount_exec_other (s : SessionResults) (st st2 : Nat) (hne : st2 ≠ st) :
    openCount (stepSess s (.exec st2)) st = openCount s st := by
  unfold openCount stepSess
  rw [List.countP_append, List.countP_map]
  have hcongr : List.countP
      ((fun r => r.stmt == st && r.isOpen) ∘ closeForStmt st2) s.results
      = List.countP (fun r => r.stmt == st && r.isOpen) s.results := by
    apply List.countP_congr
    intro r _
    unfold closeForStmt
    by_cases hr : r.stmt = st2
    · simp [hr, hne]
    · simp [hr]
  rw [hcongr]
  simp [hne]

theorem openCount_closeRes_le (s : SessionResults) (i st : Nat) :
    openCount (stepSess s (.closeRes i)) st ≤ openCount s st := by
  unfold openCount stepSess
  rw [List.countP_map]
  apply List.countP_mono_left
  intro r _
  unfold closeForId
  by_cases hr : r.rid = i
  · simp [hr]
  · simp [hr]

theorem openCount_invariant (s : SessionResults) (h : ReachableSess s) (st : Nat) :
    openCount s st ≤ 1 := by
  induction h generalizing st with
  | init => simp [openCount]
  | step s0 op _ ih =>
    cases op with
    | exec st2 =>
      by_cases he : st2 = st
      · subst he
        rw [openCount_exec_self]
      · rw [openCount_exec_other s0 st st2 he]
        exact ih st
    | closeRes i => exact le_trans (openCount_closeRes_le s0 i st) (ih st)

/-- C3: in every reachable session state a Statement has at most one open
Result, and executing the Statement again implicitly closes the previously
open Result — after the new execute, the only open Result of that Statement
is the freshly opened one. -/
theorem c3_single_open_result (s : SessionResults) (h : ReachableSess s) (st : Nat) :
    openCount s st ≤ 1 ∧
    ∀ r ∈ (stepSess s (.exec st)).results,
      r.stmt = st → r.isOpen = true → r.rid = s.nextId := by
  refine ⟨openCount_invariant s h st, ?_⟩
  intro r hr hstmt hopen
  unfold stepSess at hr
  rcases List.mem_append.mp hr with hmem | hmem
  · rcases List.mem_map.mp hmem with ⟨r0, _, heq⟩
    subst heq
    unfold closeForStmt at hstmt hopen
    by_cases h0 : r0.stmt = st
    · simp [h0] at hopen
    · simp [h0] at hstmt
  · rcases List.mem_singleton.mp hmem with rfl
    rfl

/-- Witness for C3 at a concrete reachable state: after executing statement
5 twice from the fresh session, it still has exactly one open Result, and
any open Result of statement 5 after a further execute is the fresh one. -/
theorem c3_single_open_result_witness :
    openCount (stepSess (stepSess { results := [], nextId := 0 } (.exec 5)) (.exec 5)) 5 ≤ 1 :=
  (c3_single_open_result
    (stepSess (stepSess { results := [], nextId := 0 } (.exec 5)) (.exec 5))
    (.step _ _ (.step _ _ .init)) 5).1

end HdbDriver

namespace HdbDriver

theorem all_isPos_of_posOnly (phs : List Placeholder) (h : classify phs = .posOnly) :
    phs.all isPos = true := by
  unfold classify at h
  by_cases h1 : phs.any isPos = true
  · rw [if_pos h1] at h
    by_cases h2 : phs.any isNamed = true
    · rw [if_pos h2] at h
      cases h
    · apply List.all_eq_true.mpr
      intro x hx
      cases x with
      | pos => rfl
      | named nm =>
        exact absurd (List.any_eq_true.mpr ⟨.named nm, hx, rfl⟩) h2
  · rw [if_neg h1] at h
    by_cases h2 : phs.any isNamed = true
    · rw [if_pos h2] at h
      cases h
    · rw [if_neg h2] at h
      cases h

theorem all_isNamed_of_namedOnly (phs : List Placeholder) (h : classify phs = .namedOnly) :
    phs.all isNamed = true := by
  unfold classify at h
  by_cases h1 : phs.any isPos = true
  · rw [if_pos h1] at h
    by_cases h2 : phs.any isNamed = true
    · rw [if_pos h2] at h
      cases h
    · rw [if_neg h2] at h
      cases h
  · apply List.all_eq_true.mpr
    intro x hx
    cases x with
    | pos => exact absurd (List.any_eq_true.mpr ⟨.pos, hx, rfl⟩) h1
    | named nm => rfl

theorem bindParams_tuple_ok (phs : List Placeholder) (vs : List SqlValue)
    (hall : phs.all isPos = true) (hlen : phs.length = vs.length) :
    bindParams phs (.tuple vs) = .ok vs := by
  simp [bindParams, hlen, hall]

theorem resolveNamed_ok (m : List (String × SqlValue)) (phs : List Placeholder)
    (hall : phs.all isNamed = true)
    (hlook : ∀ nm, Placeholder.named nm ∈ phs → (lookupArg m nm).isSome) :
    ∃ row, resolveNamed m phs = some row := by
  induction phs with
  | nil => exact ⟨[], rfl⟩
  | cons ph t ih =>
    cases ph with
    | pos => simp [isNamed] at hall
    | named nm =>
      have hs : (lookupArg m nm).isSome := hlook nm (List.mem_cons_self _ _)
      obtain ⟨v, hv⟩ := Option.isSome_iff_exists.mp hs
      have htall : t.all isNamed = true := by
        simp only [List.all_cons, Bool.and_eq_true] at hall
        exact hall.2
      obtain ⟨row, hrow⟩ := ih htall (fun nm2 h2 => hlook nm2 (List.mem_cons_of_mem _ h2))
      exact ⟨v :: row, by simp [resolveNamed, hv, hrow]⟩

/-- C5: a statement text containing both a positional and a named
placeholder fails with BindingError without any bytes being sent on the
transport, while positional-only and named-only statements are accepted by
the same statement-parsing pass (their ParameterSets of matching arity or
complete name coverage bind successfully). -/
theorem c5_mixed_binding_error (sql : String) (a : Args) (s : Session) :
    (classify (scanPH sql.data) = .mixed →
      executeStmt sql a s = (.error .bindingError, s) ∧
      (executeStmt sql a s).2.sent = s.sent) ∧
    (∀ vs : List SqlValue, classify (scanPH sql.data) = .posOnly →
      (scanPH sql.data).length = vs.length →
      bindParams (scanPH sql.data) (.tuple vs) = .ok vs) ∧
    (∀ m : List (String × SqlValue), classify (scanPH sql.data) = .namedOnly →
      (∀ nm, Placeholder.named nm ∈ scanPH sql.data → (lookupArg m nm).isSome) →
      ∃ row, bindParams (scanPH sql.data) (.dict m) = .ok row) := by
  refine ⟨?_, ?_, ?_⟩
  · intro hmix
    have hexec : executeStmt sql a s = (.error .bindingError, s) := by
      unfold executeStmt
      rw [if_pos hmix]
    exact ⟨hexec, by rw [hexec]⟩
  · intro vs hpos hlen
    exact bindParams_tuple_ok _ vs (all_isPos_of_posOnly _ hpos) hlen
  · intro m hnamed hlook
    obtain ⟨row, hrow⟩ :=
      resolveNamed_ok m _ (all_isNamed_of_namedOnly _ hnamed) hlook
    exact ⟨row, by simp [bindParams, hrow]⟩

/-- Witness for C5 at concrete inputs: a statement mixing a question mark
and a colon-named placeholder fails with BindingError and sends nothing,
while the scenario's positional-only and named-only INSERT statements both
bind successfully. -/
theorem c5_mixed_binding_error_witness :
    executeStmt "SELECT * FROM T1 WHERE ID = ? AND C2 = :c2" .noArgs
      { table := none, sent := [] }
      = (.error .bindingError, { table := none, sent := [] }) ∧
    bindParams (scanPH sqlInsertPos.data) (.tuple [.intV 1, .strV "hello"])
      = .ok [.intV 1, .strV "hello"] ∧
    ∃ row, bindParams (scanPH sqlInsertNamed.data)
      (.dict [("id", .intV 3), ("c2", .strV "goodbye")]) = .ok row := by
  refine ⟨?_, ?_, ?_⟩
  · exact ((c5_mixed_binding_error "SELECT * FROM T1 WHERE ID = ? AND C2 = :c2" .noArgs
      { table := none, sent := [] }).1 (by decide)).1
  · exact (c5_mixed_binding_error sqlInsertPos .noArgs { table := none, sent := [] }).2.1
      [.intV 1, .strV "hello"] (by decide) (by decide)
  · refine (c5_mixed_binding_error sqlInsertNamed .noArgs { table := none, sent := [] }).2.2
      [("id", .intV 3), ("c2", .strV "goodbye")] (by decide) ?_
    intro nm hnm
    rw [show scanPH sqlInsertNamed.data = [Placeholder.named "id", Placeholder.named "c2"]
      from by decide] at hnm
    simp only [List.mem_cons, List.not_mem_nil, or_false] at hnm
    rcases hnm with h | h
    · rw [Placeholder.named.inj h]
      decide
    · rw [Placeholder.named.inj h]
      decide

end HdbDriver

namespace Scripts

theorem exception_handler_catches (e : PyExc) :
    runExceptClause scriptGlobals "Exception" e = .handled e := by
  have hc : "Exception" ∈ scriptGlobals := by decide
  simp [runExceptClause, hc, excClassCatches]

/-- C8: the except clause spelled Exceptiopn in x_bstring_test.py is an
undefined name — whenever the handler is triggered by an exception escaping
its try block, evaluating it raises a NameError instead of handling the
original exception. -/
theorem c8_exceptiopn_typo :
    scriptGlobals.contains "Exceptiopn" = false ∧
    (∀ e, runExceptClause scriptGlobals "Exceptiopn" e = .escaped .nameErr) ∧
    (∀ b : ScriptFaults, ∀ e, b.cursorE = some e → b.connCloseE = none →
      (middleResult b).escaping = some .nameErr) := by
  have hc : scriptGlobals.contains "Exceptiopn" = false := by decide
  have hmem : "Exceptiopn" ∉ scriptGlobals := by decide
  refine ⟨hc, fun e => by simp [runExceptClause, hmem], ?_⟩
  intro b e h1 h2
  simp [middleResult, h1, h2, runExceptClause, hmem]

/-- Witness for C8 at a concrete input: with cursor creation failing and
conn.close succeeding, the middle statement of x_bstring_test.py lets a
NameError escape rather than handling the original database error. -/
theorem c8_exceptiopn_typo_witness :
    (middleResult ⟨none, some (.dbError 3), none, none, none⟩).escaping
      = some .nameErr :=
  c8_exceptiopn_typo.2.2 ⟨none, some (.dbError 3), none, none, none⟩
    (.dbError 3) rfl rfl

/-- C10: every exception raised by the database operations of
x_bstring_test.py — and the NameError produced by the misspelled Exceptiopn
handler — is caught by an enclosing except Exception handler, which prints
it; no exception raised inside the outermost try block propagates out of
the script. -/
theorem c10_all_caught (b : ScriptFaults) :
    (runScript b).escapedExc = none ∧
    (∀ e, b.connectE = none → b.cursorE = none → b.executeE = some e →
      (runScript b).innerPrints = [e]) ∧
    (∀ e, b.connectE = some e → (runScript b).outerPrints = [e]) ∧
    (∀ e, b.connectE = none → (middleResult b).escaping = some e →
      (runScript b).outerPrints = [e]) := by
  refine ⟨?_, ?_, ?_, ?_⟩
  · cases hc : b.connectE with
    | none =>
      cases hm : (middleResult b).escaping with
      | none => simp [runScript, hc, hm]
      | some e => simp [runScript, hc, hm, exception_handler_catches]
    | some e => simp [runScript, hc, exception_handler_catches]
  · intro e h1 h2 h3
    have hip : (innerResult b).2 = [e] := by
      cases hcc : b.cursorCloseE <;>
        simp [innerResult, h3, hcc, exception_handler_catches]
    have hmp : (middleResult b).innerPrints = [e] := by
      simp [middleResult, h2, hip]
    cases hm : (middleResult b).escaping with
    | none => simp [runScript, h1, hm, hmp]
    | some e2 => simp [runScript, h1, hm, exception_handler_catches, hmp]
  · intro e h1
    simp [runScript, h1, exception_handler_catches]
  · intro e h1 hm
    simp [runScript, h1, hm, exception_handler_catches]

/-- Witness for C10 at a concrete input: when cursor creation raises, the
script terminates normally and the outermost except Exception handler
prints the NameError produced by the Exceptiopn typo. -/
theorem c10_all_caught_witness :
    (runScript ⟨none, some (.dbError 7), none, none, none⟩).escapedExc = none ∧
    (runScript ⟨none, some (.dbError 7), none, none, none⟩).outerPrints = [.nameErr] := by
  have h := c10_all_caught ⟨none, some (.dbError 7), none, none, none⟩
  exact ⟨h.1, h.2.2.2 .nameErr rfl (by decide)⟩

/-- C9 counterexample: on the (only) error-free exit path of test01.py the
connection is still open and the final SELECT cursor (cursor 4) is still
open, so not every opened Connection and Result has been released at exit. -/
theorem c9_test01_leak :
    allReleased test01Trace = false ∧
    connOpenAfter test01Trace = true ∧
    openCursAfter test01Trace = [4] := by
  refine ⟨by decide, by decide, by decide⟩

/-- C9 amended: in x_bstring_test.py every opened Connection and cursor is
released on every exit path, error paths included; test01.py, however,
leaves its Connection and its final SELECT cursor open at script exit. -/
theorem c9_xbstring_released (b : ScriptFaults) :
    ((runScript b).connOpened = true → (runScript b).connCloseCalled = true) ∧
    ((runScript b).cursorOpened = true → (runScript b).cursorCloseCalled = true) ∧
    allReleased test01Trace = false := by
  have hcur : (middleResult b).cursorOpened = (middleResult b).cursorCloseCalled := by
    cases hc : b.cursorE <;> simp [middleResult, hc]
  refine ⟨?_, ?_, by decide⟩
  · cases hc : b.connectE with
    | none =>
      cases hm : (middleResult b).escaping with
      | none => simp [runScript, hc, hm]
      | some e => simp [runScript, hc, hm, exception_handler_catches]
    | some e => simp [runScript, hc, exception_handler_catches]
  · cases hc : b.connectE with
    | none =>
      cases hm : (middleResult b).escaping with
      | none =>
        simp only [runScript, hc, hm]
        exact fun h => hcur ▸ h
      | some e =>
        simp only [runScript, hc, hm, exception_handler_catches]
        exact fun h => hcur ▸ h
    | some e => simp [runScript, hc, exception_handler_catches]

/-- Witness for C9 (amended) at a concrete input: on the fault-free run of
x_bstring_test.py both close calls happen, while test01.py leaks. -/
theorem c9_xbstring_released_witness :
    (runScript ⟨none, none, none, none, none⟩).connCloseCalled = true ∧
    (runScript ⟨none, none, none, none, none⟩).cursorCloseCalled = true ∧
    allReleased test01Trace = false := by
  have h := c9_xbstring_released ⟨none, none, none, none, none⟩
  exact ⟨h.1 (by decide), h.2.1 (by decide), h.2.2⟩

end Scripts
